import Mathlib

/-!
Shallow embedding of the MultiButton driver (multi_button.c / multi_button.h):
a per-instance debouncing filter plus a gesture-classification state machine,
and the start/stop registry over an intrusive list.

Machine integers are modelled as `Nat` with explicit reduction at the bit
widths of the C bit-fields: `ticks` is a `uint16_t` (mod 2^16), `repeat` a
4-bit field (mod 16), `debounce_cnt` a 3-bit field (mod 8), `state` a 3-bit
field, and the two level fields are 1-bit (mod 2).  Callback dispatch
(`EVENT_CB`) is modelled by recording, in order, each event that the handler
fires together with a snapshot of the instance at the moment of the call
(the C callback receives the `handle` pointer at exactly that moment).
-/

namespace MultiButton

/-- TICKS_INTERVAL from multi_button.h: 5 ms per scan. -/
def TICKS_INTERVAL : Nat := 5

/-- DEBOUNCE_TICKS from multi_button.h: debounce filter depth. -/
def DEBOUNCE_TICKS : Nat := 3

/-- SHORT_TICKS from multi_button.h: 300 ms / TICKS_INTERVAL = 60. -/
def SHORT_TICKS : Nat := 300 / TICKS_INTERVAL

/-- LONG_TICKS from multi_button.h: 1000 ms / TICKS_INTERVAL = 200. -/
def LONG_TICKS : Nat := 1000 / TICKS_INTERVAL

/-- PRESS_REPEAT_MAX_NUM from multi_button.h. -/
def PRESS_REPEAT_MAX_NUM : Nat := 15

/-- ButtonEvent enum from multi_button.h (values 0..8 in declaration order;
all fit the 4-bit `event` field losslessly). -/
inductive ButtonEvent : Type where
  | BTN_PRESS_DOWN
  | BTN_PRESS_UP
  | BTN_PRESS_REPEAT
  | BTN_SINGLE_CLICK
  | BTN_DOUBLE_CLICK
  | BTN_LONG_PRESS_START
  | BTN_LONG_PRESS_HOLD
  | BTN_EVENT_COUNT
  | BTN_NONE_PRESS
  deriving DecidableEq

open ButtonEvent

/-- ButtonState BTN_STATE_IDLE = 0.  The `state` member of `_Button` is a
3-bit field, so it ranges over 0..7 and is modelled as a `Nat`; the enum
only names 0..4, values 5..7 hit the handler's `default` branch. -/
def BTN_STATE_IDLE : Nat := 0

/-- ButtonState BTN_STATE_PRESS = 1. -/
def BTN_STATE_PRESS : Nat := 1

/-- ButtonState BTN_STATE_RELEASE = 2. -/
def BTN_STATE_RELEASE : Nat := 2

/-- ButtonState BTN_STATE_REPEAT = 3. -/
def BTN_STATE_REPEAT : Nat := 3

/-- ButtonState BTN_STATE_LONG_HOLD = 4. -/
def BTN_STATE_LONG_HOLD : Nat := 4

/-- The `_Button` struct from multi_button.h, without the external
collaborators (`hal_button_level`, the `cb[]` table and the intrusive
`next` pointer, which are modelled outside the record). -/
structure Button : Type where
  ticks : Nat
  rpt : Nat
  event : ButtonEvent
  state : Nat
  debounce_cnt : Nat
  active_level : Nat
  button_level : Nat
  button_id : Nat
  deriving DecidableEq

/-- button_init from multi_button.c: memset to zero, `event = BTN_NONE_PRESS`,
`button_level = !active_level`, store the active level and id (both level
fields are 1-bit, so they hold the value mod 2). -/
def button_init (active_level : Nat) (button_id : Nat) : Button :=
  { ticks := 0
    rpt := 0
    event := BTN_NONE_PRESS
    state := BTN_STATE_IDLE
    debounce_cnt := 0
    active_level := active_level % 2
    button_level := if active_level = 0 then 1 else 0
    button_id := button_id }

/-- The first block of button_handler:
`if (handle->state > BTN_STATE_IDLE) handle->ticks++;` with `ticks` a
`uint16_t`. -/
def tick_inc (b0 : Button) : Button :=
  if b0.state > BTN_STATE_IDLE then
    { b0 with ticks := (b0.ticks + 1) % 65536 }
  else b0

/-- The debounce block of button_handler:
`if (read_gpio_level != handle->button_level) { if (++(handle->debounce_cnt)
>= DEBOUNCE_TICKS) { commit } } else { handle->debounce_cnt = 0; }`,
with `debounce_cnt` a 3-bit field and `button_level` a 1-bit field. -/
def debounce (b1 : Button) (read_gpio_level : Nat) : Button :=
  if read_gpio_level ≠ b1.button_level then
    let cnt := (b1.debounce_cnt + 1) % 8
    if cnt ≥ DEBOUNCE_TICKS then
      { b1 with button_level := read_gpio_level % 2, debounce_cnt := 0 }
    else
      { b1 with debounce_cnt := cnt }
  else
    { b1 with debounce_cnt := 0 }

/-- The `switch (handle->state)` block of button_handler.  Returns the
updated instance together with the ordered list of events fired through
`EVENT_CB`, each paired with the snapshot of the instance at the moment of
the callback. -/
def state_switch (b : Button) : Button × List (ButtonEvent × Button) :=
  if b.state = BTN_STATE_IDLE then
    if b.button_level = b.active_level then
      let b2 := { b with event := BTN_PRESS_DOWN }
      ({ b2 with ticks := 0, rpt := 1, state := BTN_STATE_PRESS },
        [(BTN_PRESS_DOWN, b2)])
    else
      ({ b with event := BTN_NONE_PRESS }, [])
  else if b.state = BTN_STATE_PRESS then
    if b.button_level ≠ b.active_level then
      let b2 := { b with event := BTN_PRESS_UP }
      ({ b2 with ticks := 0, state := BTN_STATE_RELEASE }, [(BTN_PRESS_UP, b2)])
    else if b.ticks > LONG_TICKS then
      let b2 := { b with event := BTN_LONG_PRESS_START }
      ({ b2 with state := BTN_STATE_LONG_HOLD }, [(BTN_LONG_PRESS_START, b2)])
    else
      (b, [])
  else if b.state = BTN_STATE_RELEASE then
    if b.button_level = b.active_level then
      let b2 := { b with event := BTN_PRESS_DOWN }
      -- if (handle->repeat < PRESS_REPEAT_MAX_NUM) handle->repeat++;  (4-bit)
      let b3 :=
        if b2.rpt < PRESS_REPEAT_MAX_NUM then
          { b2 with rpt := (b2.rpt + 1) % 16 }
        else b2
      ({ b3 with ticks := 0, state := BTN_STATE_REPEAT },
        [(BTN_PRESS_DOWN, b2), (BTN_PRESS_REPEAT, b3)])
    else if b.ticks > SHORT_TICKS then
      if b.rpt = 1 then
        let b2 := { b with event := BTN_SINGLE_CLICK }
        ({ b2 with state := BTN_STATE_IDLE }, [(BTN_SINGLE_CLICK, b2)])
      else if b.rpt = 2 then
        let b2 := { b with event := BTN_DOUBLE_CLICK }
        ({ b2 with state := BTN_STATE_IDLE }, [(BTN_DOUBLE_CLICK, b2)])
      else
        ({ b with state := BTN_STATE_IDLE }, [])
    else
      (b, [])
  else if b.state = BTN_STATE_REPEAT then
    if b.button_level ≠ b.active_level then
      let b2 := { b with event := BTN_PRESS_UP }
      if b2.ticks < SHORT_TICKS then
        ({ b2 with ticks := 0, state := BTN_STATE_RELEASE }, [(BTN_PRESS_UP, b2)])
      else
        ({ b2 with state := BTN_STATE_IDLE }, [(BTN_PRESS_UP, b2)])
    else if b.ticks > SHORT_TICKS then
      ({ b with state := BTN_STATE_PRESS }, [])
    else
      (b, [])
  else if b.state = BTN_STATE_LONG_HOLD then
    if b.button_level = b.active_level then
      let b2 := { b with event := BTN_LONG_PRESS_HOLD }
      (b2, [(BTN_LONG_PRESS_HOLD, b2)])
    else
      let b2 := { b with event := BTN_PRESS_UP }
      ({ b2 with state := BTN_STATE_IDLE }, [(BTN_PRESS_UP, b2)])
  else
    -- default: invalid state, defensive recovery
    ({ b with state := BTN_STATE_IDLE }, [])

/-- button_handler from multi_button.c, one invocation on one instance:
the tick increment, then the debounce filter, then the state machine.
`read_gpio_level` is the value returned by `hal_button_level` this tick. -/
def button_handler (b0 : Button) (read_gpio_level : Nat) :
    Button × List (ButtonEvent × Button) :=
  state_switch (debounce (tick_inc b0) read_gpio_level)

/-- Iterate `button_handler` over a raw sample sequence, collecting the fired
events in order (the snapshots are dropped; `button_ticks` calls the handler
once per tick on each active instance). -/
def run_button (b : Button) : List Nat → Button × List ButtonEvent
  | [] => (b, [])
  | r :: rs =>
    let step := button_handler b r
    let rest := run_button step.1 rs
    (rest.1, step.2.map Prod.fst ++ rest.2)

/-- button_get_event from multi_button.c: `BTN_NONE_PRESS` on a null handle,
otherwise the stored event field. -/
def button_get_event : Option Button → ButtonEvent
  | none => BTN_NONE_PRESS
  | some b => b.event

/-- The `while (target) { if (target == handle) ... target = target->next; }`
scan of button_start, over the active list modelled as a list of instance
identities (pointer equality becomes identity equality). -/
def list_scan : List Nat → Nat → Bool
  | [], _ => false
  | t :: rest, h => if t = h then true else list_scan rest h

/-- button_start from multi_button.c: -2 on null, -1 if the instance is
already in the active list (list unchanged), else prepend and return 0. -/
def button_start (handle : Option Nat) (head_handle : List Nat) :
    Int × List Nat :=
  match handle with
  | none => (-2, head_handle)
  | some h =>
    if list_scan head_handle h then (-1, head_handle)
    else (0, h :: head_handle)

/-- The unlink loop of button_stop: remove the first node equal to the target
and stop (the `for (curr = &head_handle; *curr; )` walk with
`*curr = entry->next; return;`). -/
def unlink_first : List Nat → Nat → List Nat
  | [], _ => []
  | e :: rest, h => if e = h then rest else e :: unlink_first rest h

/-- button_stop from multi_button.c: no-op on null, otherwise unlink the
first matching node. -/
def button_stop (handle : Option Nat) (head_handle : List Nat) : List Nat :=
  match handle with
  | none => head_handle
  | some h => unlink_first head_handle h

/-- A button whose 3-bit state field holds the out-of-enum value 7. -/
def wb_corrupt : Button :=
  { ticks := 9, rpt := 3, event := BTN_PRESS_DOWN, state := 7,
    debounce_cnt := 0, active_level := 1, button_level := 0, button_id := 2 }

/-- A freshly released button waiting in Release with one completed cycle
and a quiet window already elapsed. -/
def wb_release1 : Button :=
  { ticks := 60, rpt := 1, event := BTN_PRESS_UP, state := BTN_STATE_RELEASE,
    debounce_cnt := 0, active_level := 1, button_level := 0, button_id := 0 }

/-- A button in Release whose stable level has just become active again. -/
def wb_repress : Button :=
  { ticks := 10, rpt := 1, event := BTN_PRESS_DOWN, state := BTN_STATE_RELEASE,
    debounce_cnt := 0, active_level := 1, button_level := 1, button_id := 0 }

/-- A button in Repeat whose stable level has become inactive quickly. -/
def wb_repeat : Button :=
  { ticks := 5, rpt := 2, event := BTN_PRESS_DOWN, state := BTN_STATE_REPEAT,
    debounce_cnt := 0, active_level := 1, button_level := 0, button_id := 0 }

/-- An idle button with its stable level inactive and a stale click event. -/
def wb_idle_stale : Button :=
  { ticks := 61, rpt := 1, event := BTN_SINGLE_CLICK, state := BTN_STATE_IDLE,
    debounce_cnt := 0, active_level := 1, button_level := 0, button_id := 0 }


/-- The instance produced by the Idle-to-Press transition of a fresh
active-high button after its press debounces (reached by three active
samples from `button_init 1 0`). -/
def press_start : Button :=
  { ticks := 0, rpt := 1, event := BTN_PRESS_DOWN, state := BTN_STATE_PRESS,
    debounce_cnt := 0, active_level := 1, button_level := 1, button_id := 0 }


end MultiButton


namespace MultiButton

/-! ### Projection lemmas for the three handler stages -/

@[simp] theorem tick_inc_button_level (b : Button) :
    (tick_inc b).button_level = b.button_level := by
  unfold tick_inc; split <;> rfl

@[simp] theorem tick_inc_debounce_cnt (b : Button) :
    (tick_inc b).debounce_cnt = b.debounce_cnt := by
  unfold tick_inc; split <;> rfl

@[simp] theorem tick_inc_state (b : Button) :
    (tick_inc b).state = b.state := by
  unfold tick_inc; split <;> rfl

@[simp] theorem tick_inc_rpt (b : Button) :
    (tick_inc b).rpt = b.rpt := by
  unfold tick_inc; split <;> rfl

@[simp] theorem tick_inc_event (b : Button) :
    (tick_inc b).event = b.event := by
  unfold tick_inc; split <;> rfl

@[simp] theorem tick_inc_active_level (b : Button) :
    (tick_inc b).active_level = b.active_level := by
  unfold tick_inc; split <;> rfl

theorem tick_inc_ticks (b : Button) :
    (tick_inc b).ticks =
      if b.state > BTN_STATE_IDLE then (b.ticks + 1) % 65536 else b.ticks := by
  unfold tick_inc; split <;> rfl

@[simp] theorem debounce_ticks (b : Button) (r : Nat) :
    (debounce b r).ticks = b.ticks := by
  unfold debounce; dsimp only; (repeat' split) <;> rfl

@[simp] theorem debounce_state (b : Button) (r : Nat) :
    (debounce b r).state = b.state := by
  unfold debounce; dsimp only; (repeat' split) <;> rfl

@[simp] theorem debounce_rpt (b : Button) (r : Nat) :
    (debounce b r).rpt = b.rpt := by
  unfold debounce; dsimp only; (repeat' split) <;> rfl

@[simp] theorem debounce_event (b : Button) (r : Nat) :
    (debounce b r).event = b.event := by
  unfold debounce; dsimp only; (repeat' split) <;> rfl

@[simp] theorem debounce_active_level (b : Button) (r : Nat) :
    (debounce b r).active_level = b.active_level := by
  unfold debounce; dsimp only; (repeat' split) <;> rfl

theorem debounce_button_level (b : Button) (r : Nat) :
    (debounce b r).button_level =
      if r ≠ b.button_level ∧ (b.debounce_cnt + 1) % 8 ≥ DEBOUNCE_TICKS
      then r % 2 else b.button_level := by
  unfold debounce; dsimp only; (repeat' split) <;> simp_all

theorem debounce_debounce_cnt (b : Button) (r : Nat) :
    (debounce b r).debounce_cnt =
      if r = b.button_level ∨ (b.debounce_cnt + 1) % 8 ≥ DEBOUNCE_TICKS
      then 0 else (b.debounce_cnt + 1) % 8 := by
  unfold debounce; dsimp only; (repeat' split) <;> simp_all <;> omega

@[simp] theorem state_switch_button_level (b : Button) :
    (state_switch b).1.button_level = b.button_level := by
  unfold state_switch; dsimp only; (repeat' split) <;> rfl

@[simp] theorem state_switch_debounce_cnt (b : Button) :
    (state_switch b).1.debounce_cnt = b.debounce_cnt := by
  unfold state_switch; dsimp only; (repeat' split) <;> rfl

@[simp] theorem state_switch_active_level (b : Button) :
    (state_switch b).1.active_level = b.active_level := by
  unfold state_switch; dsimp only; (repeat' split) <;> rfl

/-- The stable level after one handler call is decided by the debounce stage
alone; the state machine never writes it. -/
theorem handler_button_level (b : Button) (r : Nat) :
    (button_handler b r).1.button_level =
      if r ≠ b.button_level ∧ (b.debounce_cnt + 1) % 8 ≥ DEBOUNCE_TICKS
      then r % 2 else b.button_level := by
  unfold button_handler
  rw [state_switch_button_level, debounce_button_level]
  simp

/-- Likewise for the debounce counter. -/
theorem handler_debounce_cnt (b : Button) (r : Nat) :
    (button_handler b r).1.debounce_cnt =
      if r = b.button_level ∨ (b.debounce_cnt + 1) % 8 ≥ DEBOUNCE_TICKS
      then 0 else (b.debounce_cnt + 1) % 8 := by
  unfold button_handler
  rw [state_switch_debounce_cnt, debounce_debounce_cnt]
  simp

/-- Running the handler over a concatenation of sample lists composes. -/
theorem run_button_append (b : Button) (xs ys : List Nat) :
    run_button b (xs ++ ys) =
      ((run_button (run_button b xs).1 ys).1,
       (run_button b xs).2 ++ (run_button (run_button b xs).1 ys).2) := by
  induction xs generalizing b with
  | nil => simp [run_button]
  | cons x xs ih => simp [run_button, ih]

end MultiButton

namespace MultiButton

/-- Disagreeing samples that stay below the debounce budget leave the stable
level untouched and only accumulate the counter. -/
theorem debounce_chain (k : Nat) (b : Button) (r : Nat)
    (hne : r ≠ b.button_level) (hcnt : b.debounce_cnt + k < DEBOUNCE_TICKS) :
    (run_button b (List.replicate k r)).1.button_level = b.button_level ∧
    (run_button b (List.replicate k r)).1.debounce_cnt = b.debounce_cnt + k := by
  induction k generalizing b with
  | zero => simp [run_button]
  | succ k ih =>
    rw [List.replicate_succ]
    have hmod : (b.debounce_cnt + 1) % 8 = b.debounce_cnt + 1 := by
      apply Nat.mod_eq_of_lt
      simp only [DEBOUNCE_TICKS] at hcnt
      omega
    have hlt : ¬ ((b.debounce_cnt + 1) % 8 ≥ DEBOUNCE_TICKS) := by
      rw [hmod]; omega
    have hl := handler_button_level b r
    have hd := handler_debounce_cnt b r
    rw [if_neg (by tauto)] at hl
    rw [if_neg (by tauto)] at hd
    rw [hmod] at hd
    have step := ih (button_handler b r).1 (by rw [hl]; exact hne)
      (by rw [hd]; omega)
    simp only [run_button]
    exact ⟨by rw [step.1, hl], by rw [step.2, hd]; omega⟩

end MultiButton

namespace MultiButton

/-- C2: a single agreeing sample resets the debounce counter and keeps the
stable level; a disagreeing sample below the threshold only increments the
counter and never flips the level (so one isolated disagreeing sample,
preceded or followed by agreement, cannot flip it); the level commits to the
new raw value exactly on the DEBOUNCE_TICKS-th consecutive disagreeing
sample, with the counter reset to 0; the counter stays below DEBOUNCE_TICKS;
and over sample sequences, DEBOUNCE_TICKS consecutive disagreeing samples
flip the level while any fewer leave it unchanged. -/
theorem C2_debounce_correct (b : Button) (r : Nat) :
    (r = b.button_level →
       (button_handler b r).1.button_level = b.button_level ∧
       (button_handler b r).1.debounce_cnt = 0) ∧
    (r ≠ b.button_level → b.debounce_cnt + 1 < DEBOUNCE_TICKS →
       (button_handler b r).1.button_level = b.button_level ∧
       (button_handler b r).1.debounce_cnt = b.debounce_cnt + 1) ∧
    (r ≠ b.button_level → b.debounce_cnt + 1 = DEBOUNCE_TICKS →
       (button_handler b r).1.button_level = r % 2 ∧
       (button_handler b r).1.debounce_cnt = 0) ∧
    (b.debounce_cnt < DEBOUNCE_TICKS →
       (button_handler b r).1.debounce_cnt < DEBOUNCE_TICKS) ∧
    (b.debounce_cnt = 0 → r ≠ b.button_level → r < 2 →
       (run_button b (List.replicate DEBOUNCE_TICKS r)).1.button_level = r) ∧
    (∀ k, b.debounce_cnt = 0 → r ≠ b.button_level → k < DEBOUNCE_TICKS →
       (run_button b (List.replicate k r)).1.button_level = b.button_level) := by
  refine ⟨?_, ?_, ?_, ?_, ?_, ?_⟩
  · intro h
    refine ⟨?_, ?_⟩
    · rw [handler_button_level, if_neg]; simp [h]
    · rw [handler_debounce_cnt, if_pos (Or.inl h)]
  · intro hne hlt
    have hmod : (b.debounce_cnt + 1) % 8 = b.debounce_cnt + 1 := by
      apply Nat.mod_eq_of_lt
      simp only [DEBOUNCE_TICKS] at hlt
      omega
    refine ⟨?_, ?_⟩
    · rw [handler_button_level, if_neg]
      rw [hmod]
      rintro ⟨-, h2⟩
      omega
    · rw [handler_debounce_cnt, if_neg, hmod]
      rw [hmod]
      rintro (h1 | h2)
      · exact hne h1
      · omega
  · intro hne heq
    have hmod : (b.debounce_cnt + 1) % 8 = b.debounce_cnt + 1 := by
      apply Nat.mod_eq_of_lt
      simp only [DEBOUNCE_TICKS] at heq
      omega
    refine ⟨?_, ?_⟩
    · rw [handler_button_level, if_pos ⟨hne, by rw [hmod]; omega⟩]
    · rw [handler_debounce_cnt, if_pos (Or.inr (by rw [hmod]; omega))]
  · intro hlt
    rw [handler_debounce_cnt]
    split
    · simp only [DEBOUNCE_TICKS]; omega
    · omega
  · intro h0 hne hr2
    have h2 := debounce_chain 2 b r hne (by rw [h0]; simp [DEBOUNCE_TICKS])
    have hsplit : List.replicate DEBOUNCE_TICKS r = List.replicate 2 r ++ [r] := by
      rw [show DEBOUNCE_TICKS = 2 + 1 from rfl, List.replicate_succ']
    rw [hsplit, run_button_append]
    have hone : ∀ c : Button, (run_button c [r]).1 = (button_handler c r).1 := by
      intro c; simp [run_button]
    simp only [hone]
    rw [handler_button_level, if_pos]
    · exact Nat.mod_eq_of_lt hr2
    · refine ⟨by rw [h2.1]; exact hne, ?_⟩
      rw [h2.2, h0]
      simp [DEBOUNCE_TICKS]
  · intro k h0 hne hk
    exact (debounce_chain k b r hne (by omega)).1

/-- A concrete instantiation of C2_debounce_correct: a freshly initialised
active-high button sampled once at level 1 keeps stable level 0 and counts 1. -/
theorem C2_debounce_correct_witness :
    (button_handler (button_init 1 0) 1).1.button_level =
      (button_init 1 0).button_level ∧
    (button_handler (button_init 1 0) 1).1.debounce_cnt =
      (button_init 1 0).debounce_cnt + 1 :=
  (C2_debounce_correct (button_init 1 0) 1).2.1 (by decide) (by decide)

end MultiButton

namespace MultiButton

open ButtonEvent

/-! ### Branch evaluation lemmas for the state machine -/

theorem tick_inc_pos (b : Button) (h : b.state > BTN_STATE_IDLE) :
    tick_inc b = { b with ticks := (b.ticks + 1) % 65536 } := by
  unfold tick_inc; rw [if_pos h]

theorem debounce_agree (b : Button) (r : Nat) (h : r = b.button_level) :
    debounce b r = { b with debounce_cnt := 0 } := by
  unfold debounce; rw [if_neg]; simp [h]

theorem state_switch_idle_inactive (b : Button)
    (hs : b.state = BTN_STATE_IDLE) (hl : b.button_level ≠ b.active_level) :
    state_switch b = ({ b with event := BTN_NONE_PRESS }, []) := by
  unfold state_switch
  rw [if_pos hs, if_neg hl]

theorem state_switch_idle_active (b : Button)
    (hs : b.state = BTN_STATE_IDLE) (hl : b.button_level = b.active_level) :
    state_switch b =
      ({ b with event := BTN_PRESS_DOWN, ticks := 0, rpt := 1,
                state := BTN_STATE_PRESS },
       [(BTN_PRESS_DOWN, { b with event := BTN_PRESS_DOWN })]) := by
  unfold state_switch
  rw [if_pos hs, if_pos hl]

theorem state_switch_press_release (b : Button)
    (hs : b.state = BTN_STATE_PRESS) (hl : b.button_level ≠ b.active_level) :
    state_switch b =
      ({ b with event := BTN_PRESS_UP, ticks := 0, state := BTN_STATE_RELEASE },
       [(BTN_PRESS_UP, { b with event := BTN_PRESS_UP })]) := by
  unfold state_switch
  rw [if_neg (by rw [hs]; decide), if_pos hs, if_pos hl]

theorem state_switch_press_long (b : Button)
    (hs : b.state = BTN_STATE_PRESS) (hl : b.button_level = b.active_level)
    (ht : b.ticks > LONG_TICKS) :
    state_switch b =
      ({ b with event := BTN_LONG_PRESS_START, state := BTN_STATE_LONG_HOLD },
       [(BTN_LONG_PRESS_START, { b with event := BTN_LONG_PRESS_START })]) := by
  unfold state_switch
  rw [if_neg (by rw [hs]; decide), if_pos hs, if_neg (by simp [hl]), if_pos ht]

theorem state_switch_press_wait (b : Button)
    (hs : b.state = BTN_STATE_PRESS) (hl : b.button_level = b.active_level)
    (ht : ¬ b.ticks > LONG_TICKS) :
    state_switch b = (b, []) := by
  unfold state_switch
  rw [if_neg (by rw [hs]; decide), if_pos hs, if_neg (by simp [hl]), if_neg ht]

theorem state_switch_release_repress (b : Button)
    (hs : b.state = BTN_STATE_RELEASE) (hl : b.button_level = b.active_level) :
    state_switch b =
      ({ b with event := BTN_PRESS_DOWN,
                rpt := if b.rpt < PRESS_REPEAT_MAX_NUM
                       then (b.rpt + 1) % 16 else b.rpt,
                ticks := 0, state := BTN_STATE_REPEAT },
       [(BTN_PRESS_DOWN, { b with event := BTN_PRESS_DOWN }),
        (BTN_PRESS_REPEAT,
         { b with event := BTN_PRESS_DOWN,
                  rpt := if b.rpt < PRESS_REPEAT_MAX_NUM
                         then (b.rpt + 1) % 16 else b.rpt })]) := by
  unfold state_switch
  rw [if_neg (by rw [hs]; decide), if_neg (by rw [hs]; decide), if_pos hs,
    if_pos hl]
  dsimp only
  split <;> simp

theorem state_switch_release_timeout (b : Button)
    (hs : b.state = BTN_STATE_RELEASE) (hl : b.button_level ≠ b.active_level)
    (ht : b.ticks > SHORT_TICKS) :
    state_switch b =
      (if b.rpt = 1 then
         ({ b with event := BTN_SINGLE_CLICK, state := BTN_STATE_IDLE },
          [(BTN_SINGLE_CLICK, { b with event := BTN_SINGLE_CLICK })])
       else if b.rpt = 2 then
         ({ b with event := BTN_DOUBLE_CLICK, state := BTN_STATE_IDLE },
          [(BTN_DOUBLE_CLICK, { b with event := BTN_DOUBLE_CLICK })])
       else
         ({ b with state := BTN_STATE_IDLE }, [])) := by
  unfold state_switch
  rw [if_neg (by rw [hs]; decide), if_neg (by rw [hs]; decide), if_pos hs,
    if_neg hl, if_pos ht]

theorem state_switch_release_wait (b : Button)
    (hs : b.state = BTN_STATE_RELEASE) (hl : b.button_level ≠ b.active_level)
    (ht : ¬ b.ticks > SHORT_TICKS) :
    state_switch b = (b, []) := by
  unfold state_switch
  rw [if_neg (by rw [hs]; decide), if_neg (by rw [hs]; decide), if_pos hs,
    if_neg hl, if_neg ht]

theorem state_switch_repeat_up_short (b : Button)
    (hs : b.state = BTN_STATE_REPEAT) (hl : b.button_level ≠ b.active_level)
    (ht : b.ticks < SHORT_TICKS) :
    state_switch b =
      ({ b with event := BTN_PRESS_UP, ticks := 0, state := BTN_STATE_RELEASE },
       [(BTN_PRESS_UP, { b with event := BTN_PRESS_UP })]) := by
  unfold state_switch
  rw [if_neg (by rw [hs]; decide), if_neg (by rw [hs]; decide),
    if_neg (by rw [hs]; decide), if_pos hs, if_pos hl]
  dsimp only
  rw [if_pos ht]

theorem state_switch_repeat_up_long (b : Button)
    (hs : b.state = BTN_STATE_REPEAT) (hl : b.button_level ≠ b.active_level)
    (ht : ¬ b.ticks < SHORT_TICKS) :
    state_switch b =
      ({ b with event := BTN_PRESS_UP, state := BTN_STATE_IDLE },
       [(BTN_PRESS_UP, { b with event := BTN_PRESS_UP })]) := by
  unfold state_switch
  rw [if_neg (by rw [hs]; decide), if_neg (by rw [hs]; decide),
    if_neg (by rw [hs]; decide), if_pos hs, if_pos hl]
  dsimp only
  rw [if_neg ht]

theorem state_switch_repeat_demote (b : Button)
    (hs : b.state = BTN_STATE_REPEAT) (hl : b.button_level = b.active_level)
    (ht : b.ticks > SHORT_TICKS) :
    state_switch b = ({ b with state := BTN_STATE_PRESS }, []) := by
  unfold state_switch
  rw [if_neg (by rw [hs]; decide), if_neg (by rw [hs]; decide),
    if_neg (by rw [hs]; decide), if_pos hs, if_neg (by simp [hl]), if_pos ht]

theorem state_switch_repeat_wait (b : Button)
    (hs : b.state = BTN_STATE_REPEAT) (hl : b.button_level = b.active_level)
    (ht : ¬ b.ticks > SHORT_TICKS) :
    state_switch b = (b, []) := by
  unfold state_switch
  rw [if_neg (by rw [hs]; decide), if_neg (by rw [hs]; decide),
    if_neg (by rw [hs]; decide), if_pos hs, if_neg (by simp [hl]), if_neg ht]

theorem state_switch_longhold_hold (b : Button)
    (hs : b.state = BTN_STATE_LONG_HOLD) (hl : b.button_level = b.active_level) :
    state_switch b =
      ({ b with event := BTN_LONG_PRESS_HOLD },
       [(BTN_LONG_PRESS_HOLD, { b with event := BTN_LONG_PRESS_HOLD })]) := by
  unfold state_switch
  rw [if_neg (by rw [hs]; decide), if_neg (by rw [hs]; decide),
    if_neg (by rw [hs]; decide), if_neg (by rw [hs]; decide), if_pos hs,
    if_pos hl]

theorem state_switch_longhold_up (b : Button)
    (hs : b.state = BTN_STATE_LONG_HOLD) (hl : b.button_level ≠ b.active_level) :
    state_switch b =
      ({ b with event := BTN_PRESS_UP, state := BTN_STATE_IDLE },
       [(BTN_PRESS_UP, { b with event := BTN_PRESS_UP })]) := by
  unfold state_switch
  rw [if_neg (by rw [hs]; decide), if_neg (by rw [hs]; decide),
    if_neg (by rw [hs]; decide), if_neg (by rw [hs]; decide), if_pos hs,
    if_neg (by simp [hl])]

theorem state_switch_default (b : Button)
    (h0 : b.state ≠ BTN_STATE_IDLE) (h1 : b.state ≠ BTN_STATE_PRESS)
    (h2 : b.state ≠ BTN_STATE_RELEASE) (h3 : b.state ≠ BTN_STATE_REPEAT)
    (h4 : b.state ≠ BTN_STATE_LONG_HOLD) :
    state_switch b = ({ b with state := BTN_STATE_IDLE }, []) := by
  unfold state_switch
  rw [if_neg h0, if_neg h1, if_neg h2, if_neg h3, if_neg h4]

end MultiButton

namespace MultiButton

open ButtonEvent

theorem tick_inc_not_pos (b : Button) (h : ¬ b.state > BTN_STATE_IDLE) :
    tick_inc b = b := by
  unfold tick_inc; rw [if_neg h]

/-- C8: one tick of the handler on an instance whose state field holds a
value outside the defined enum set resets the state to Idle, fires no
callback and leaves the event field untouched. -/
theorem C8_invalid_state_recovery (b : Button) (r : Nat)
    (h0 : b.state ≠ BTN_STATE_IDLE) (h1 : b.state ≠ BTN_STATE_PRESS)
    (h2 : b.state ≠ BTN_STATE_RELEASE) (h3 : b.state ≠ BTN_STATE_REPEAT)
    (h4 : b.state ≠ BTN_STATE_LONG_HOLD) :
    (button_handler b r).1.state = BTN_STATE_IDLE ∧
    (button_handler b r).2 = [] ∧
    (button_handler b r).1.event = b.event := by
  unfold button_handler
  rw [state_switch_default (debounce (tick_inc b) r) (by simpa using h0)
    (by simpa using h1) (by simpa using h2) (by simpa using h3)
    (by simpa using h4)]
  simp

/-- C8 instantiated: the corrupted state value 7 recovers to Idle. -/
theorem C8_invalid_state_recovery_witness :
    (button_handler wb_corrupt 0).1.state = BTN_STATE_IDLE ∧
    (button_handler wb_corrupt 0).2 = [] ∧
    (button_handler wb_corrupt 0).1.event = wb_corrupt.event :=
  C8_invalid_state_recovery wb_corrupt 0 (by decide) (by decide) (by decide)
    (by decide) (by decide)

/-- C10: on a tick processed in Idle with the stable level inactive the
handler overwrites the event field with BTN_NONE_PRESS (so a previously
latched click is observable only until such a tick), and button_get_event
returns BTN_NONE_PRESS both on that instance and on a null handle. -/
theorem C10_event_not_latched (b : Button) (r : Nat)
    (hs : b.state = BTN_STATE_IDLE) (hl : b.button_level ≠ b.active_level)
    (hr : r = b.button_level) :
    (button_handler b r).1.event = BTN_NONE_PRESS ∧
    button_get_event (some (button_handler b r).1) = BTN_NONE_PRESS ∧
    button_get_event none = BTN_NONE_PRESS := by
  subst hr
  unfold button_handler
  rw [tick_inc_not_pos b (by rw [hs]; decide)]
  rw [debounce_agree b b.button_level rfl]
  rw [state_switch_idle_inactive { b with debounce_cnt := 0 } hs hl]
  exact ⟨rfl, rfl, rfl⟩

/-- C10 instantiated: a stale BTN_SINGLE_CLICK is overwritten on the next
Idle tick. -/
theorem C10_event_not_latched_witness :
    (button_handler wb_idle_stale 0).1.event = BTN_NONE_PRESS ∧
    button_get_event (some (button_handler wb_idle_stale 0).1) =
      BTN_NONE_PRESS ∧
    button_get_event none = BTN_NONE_PRESS :=
  C10_event_not_latched wb_idle_stale 0 (by decide) (by decide) (by decide)

/-- C3: in Release with the stable level inactive, once ticks passes
SHORT_TICKS the handler fires BTN_SINGLE_CLICK when the repeat count is 1,
BTN_DOUBLE_CLICK when it is 2, and nothing for any other value, and in all
cases moves to Idle. -/
theorem C3_release_timeout (b : Button) (r : Nat)
    (hs : b.state = BTN_STATE_RELEASE) (hl : b.button_level ≠ b.active_level)
    (hr : r = b.button_level) (ht : SHORT_TICKS ≤ b.ticks)
    (hw : b.ticks < 65535) :
    (button_handler b r).1.state = BTN_STATE_IDLE ∧
    (button_handler b r).2.map Prod.fst =
      (if b.rpt = 1 then [BTN_SINGLE_CLICK]
       else if b.rpt = 2 then [BTN_DOUBLE_CLICK] else []) := by
  subst hr
  have hmod : (b.ticks + 1) % 65536 = b.ticks + 1 := Nat.mod_eq_of_lt (by omega)
  unfold button_handler
  rw [tick_inc_pos b (by rw [hs]; decide), hmod]
  rw [debounce_agree { b with ticks := b.ticks + 1 } b.button_level rfl]
  rw [state_switch_release_timeout { b with ticks := b.ticks + 1, debounce_cnt := 0 } hs hl (by show b.ticks + 1 > SHORT_TICKS; omega)]
  split_ifs <;> simp

/-- C3 instantiated: one completed cycle plus a quiet window yields a
single click and a return to Idle. -/
theorem C3_release_timeout_witness :
    (button_handler wb_release1 0).1.state = BTN_STATE_IDLE ∧
    (button_handler wb_release1 0).2.map Prod.fst = [BTN_SINGLE_CLICK] := by
  have h := C3_release_timeout wb_release1 0 (by decide) (by decide) (by decide)
    (by decide) (by decide)
  refine ⟨h.1, ?_⟩
  rw [h.2]
  decide

end MultiButton

namespace MultiButton

open ButtonEvent

/-- C5: a re-press seen in Release fires exactly BTN_PRESS_DOWN followed by
BTN_PRESS_REPEAT in that order within the single tick, the repeat count is
incremented (capped at PRESS_REPEAT_MAX_NUM) before the BTN_PRESS_REPEAT
callback sees the instance, and the instance moves to Repeat with ticks
reset to 0. -/
theorem C5_release_repress (b : Button) (r : Nat)
    (hs : b.state = BTN_STATE_RELEASE) (hl : b.button_level = b.active_level)
    (hr : r = b.button_level) (h15 : b.rpt ≤ PRESS_REPEAT_MAX_NUM) :
    (button_handler b r).1.state = BTN_STATE_REPEAT ∧
    (button_handler b r).1.ticks = 0 ∧
    (button_handler b r).2.map Prod.fst = [BTN_PRESS_DOWN, BTN_PRESS_REPEAT] ∧
    (button_handler b r).2.map (fun p => p.2.rpt) =
      [b.rpt, if b.rpt < PRESS_REPEAT_MAX_NUM then b.rpt + 1 else b.rpt] ∧
    (button_handler b r).1.rpt =
      (if b.rpt < PRESS_REPEAT_MAX_NUM then b.rpt + 1 else b.rpt) := by
  subst hr
  unfold button_handler
  rw [tick_inc_pos b (by rw [hs]; decide)]
  rw [debounce_agree { b with ticks := (b.ticks + 1) % 65536 } b.button_level rfl]
  rw [state_switch_release_repress { b with ticks := (b.ticks + 1) % 65536, debounce_cnt := 0 } hs hl]
  have hmod16 : b.rpt < PRESS_REPEAT_MAX_NUM → (b.rpt + 1) % 16 = b.rpt + 1 := by
    intro hlt
    apply Nat.mod_eq_of_lt
    simp only [PRESS_REPEAT_MAX_NUM] at hlt
    omega
  dsimp only
  refine ⟨rfl, rfl, by simp, ?_, ?_⟩ <;> split_ifs with hlt <;>
    simp [hmod16, hlt]

/-- C5 instantiated: a second press in Release fires PressDown then
PressRepeat with the repeat count already at 2. -/
theorem C5_release_repress_witness :
    (button_handler wb_repress 1).1.state = BTN_STATE_REPEAT ∧
    (button_handler wb_repress 1).1.ticks = 0 ∧
    (button_handler wb_repress 1).2.map Prod.fst =
      [BTN_PRESS_DOWN, BTN_PRESS_REPEAT] ∧
    (button_handler wb_repress 1).2.map (fun p => p.2.rpt) =
      [wb_repress.rpt, if wb_repress.rpt < PRESS_REPEAT_MAX_NUM
                       then wb_repress.rpt + 1 else wb_repress.rpt] ∧
    (button_handler wb_repress 1).1.rpt =
      (if wb_repress.rpt < PRESS_REPEAT_MAX_NUM
       then wb_repress.rpt + 1 else wb_repress.rpt) :=
  C5_release_repress wb_repress 1 (by decide) (by decide) (by decide)
    (by decide)

/-- C7: in Repeat, a release fires BTN_PRESS_UP and moves to Release with
ticks reset when the ticks accumulated in Repeat stay below SHORT_TICKS,
and to Idle otherwise; a level held past SHORT_TICKS demotes the instance
to Press without firing any event, so long-press arming never happens
directly from Repeat. -/
theorem C7_repeat_transitions (b : Button) (r : Nat)
    (hs : b.state = BTN_STATE_REPEAT) (hr : r = b.button_level)
    (hw : b.ticks < 65535) :
    (b.button_level ≠ b.active_level →
      (button_handler b r).2.map Prod.fst = [BTN_PRESS_UP] ∧
      (b.ticks + 1 < SHORT_TICKS →
        (button_handler b r).1.state = BTN_STATE_RELEASE ∧
        (button_handler b r).1.ticks = 0) ∧
      (¬ b.ticks + 1 < SHORT_TICKS →
        (button_handler b r).1.state = BTN_STATE_IDLE)) ∧
    (b.button_level = b.active_level → b.ticks + 1 > SHORT_TICKS →
      (button_handler b r).1.state = BTN_STATE_PRESS ∧
      (button_handler b r).2 = []) := by
  subst hr
  have hmod : (b.ticks + 1) % 65536 = b.ticks + 1 := Nat.mod_eq_of_lt (by omega)
  unfold button_handler
  rw [tick_inc_pos b (by rw [hs]; decide), hmod]
  rw [debounce_agree { b with ticks := b.ticks + 1 } b.button_level rfl]
  constructor
  · intro hl
    by_cases ht : b.ticks + 1 < SHORT_TICKS
    · rw [state_switch_repeat_up_short { b with ticks := b.ticks + 1, debounce_cnt := 0 } hs hl ht]
      refine ⟨by simp, fun _ => ⟨rfl, rfl⟩, fun hc => absurd ht hc⟩
    · rw [state_switch_repeat_up_long { b with ticks := b.ticks + 1, debounce_cnt := 0 } hs hl ht]
      refine ⟨by simp, fun hc => absurd hc ht, fun _ => rfl⟩
  · intro hl ht
    rw [state_switch_repeat_demote { b with ticks := b.ticks + 1, debounce_cnt := 0 } hs hl ht]
    exact ⟨rfl, rfl⟩

/-- C7 instantiated: a quick release in Repeat fires PressUp and waits in
Release with ticks reset. -/
theorem C7_repeat_transitions_witness :
    (button_handler wb_repeat 0).2.map Prod.fst = [BTN_PRESS_UP] ∧
    (button_handler wb_repeat 0).1.state = BTN_STATE_RELEASE ∧
    (button_handler wb_repeat 0).1.ticks = 0 := by
  have h := (C7_repeat_transitions wb_repeat 0 (by decide) (by decide)
    (by decide)).1 (by decide)
  exact ⟨h.1, (h.2.1 (by decide)).1, (h.2.1 (by decide)).2⟩

end MultiButton

namespace MultiButton

open ButtonEvent

/-- The state machine changes the repeat counter only on the Idle-to-Press
transition (where it writes 1) and on a Release re-press below the cap
(where it increments through the 4-bit field). -/
theorem state_switch_rpt_cases (b : Button) :
    (state_switch b).1.rpt = b.rpt ∨
    (b.state = BTN_STATE_IDLE ∧ (state_switch b).1.state = BTN_STATE_PRESS ∧
      (state_switch b).1.rpt = 1) ∨
    (b.state = BTN_STATE_RELEASE ∧
      (state_switch b).1.state = BTN_STATE_REPEAT ∧
      b.rpt < PRESS_REPEAT_MAX_NUM ∧
      (state_switch b).1.rpt = (b.rpt + 1) % 16) := by
  unfold state_switch
  dsimp only
  (repeat' split) <;> simp_all

/-- One handler call keeps the repeat counter at or below the cap. -/
theorem handler_rpt_le (b : Button) (r : Nat)
    (h : b.rpt ≤ PRESS_REPEAT_MAX_NUM) :
    (button_handler b r).1.rpt ≤ PRESS_REPEAT_MAX_NUM := by
  unfold button_handler
  have hc := state_switch_rpt_cases (debounce (tick_inc b) r)
  simp only [debounce_rpt, tick_inc_rpt] at hc
  simp only [PRESS_REPEAT_MAX_NUM] at h ⊢
  rcases hc with h1 | h2 | h3
  · omega
  · omega
  · rw [h3.2.2.2]; omega

/-- C4: starting at or below the cap, the repeat count never exceeds
PRESS_REPEAT_MAX_NUM = 15 over any input sequence; one tick sets it to 1
exactly on an Idle-to-Press transition, increments it (clamped below 15) on
a Release re-press, and leaves it unchanged in every other situation. -/
theorem C4_repeat_bounded (b : Button) (r : Nat) (rs : List Nat)
    (h : b.rpt ≤ PRESS_REPEAT_MAX_NUM) :
    (run_button b rs).1.rpt ≤ PRESS_REPEAT_MAX_NUM ∧
    (b.state = BTN_STATE_IDLE →
      (button_handler b r).1.state = BTN_STATE_PRESS →
      (button_handler b r).1.rpt = 1) ∧
    (b.state = BTN_STATE_RELEASE → r = b.button_level →
      b.button_level = b.active_level →
      (button_handler b r).1.rpt =
        (if b.rpt < PRESS_REPEAT_MAX_NUM then b.rpt + 1 else b.rpt)) ∧
    (¬ (b.state = BTN_STATE_IDLE ∧
        (button_handler b r).1.state = BTN_STATE_PRESS) →
     ¬ (b.state = BTN_STATE_RELEASE ∧
        (button_handler b r).1.state = BTN_STATE_REPEAT) →
      (button_handler b r).1.rpt = b.rpt) := by
  refine ⟨?_, ?_, ?_, ?_⟩
  · clear r
    induction rs generalizing b with
    | nil => simpa [run_button] using h
    | cons x xs ih =>
      simp only [run_button]
      exact ih (button_handler b x).1 (handler_rpt_le b x h)
  · intro hs hpost
    unfold button_handler at hpost ⊢
    by_cases hl : (debounce (tick_inc b) r).button_level =
        (debounce (tick_inc b) r).active_level
    · rw [state_switch_idle_active (debounce (tick_inc b) r)
        (by simpa using hs) hl]
    · rw [state_switch_idle_inactive (debounce (tick_inc b) r)
        (by simpa using hs) hl] at hpost
      simp only [debounce_state, tick_inc_state] at hpost
      rw [hs] at hpost
      exact absurd hpost (by decide)
  · intro hs hr hl
    subst hr
    unfold button_handler
    rw [tick_inc_pos b (by rw [hs]; decide)]
    rw [debounce_agree { b with ticks := (b.ticks + 1) % 65536 } b.button_level rfl]
    rw [state_switch_release_repress { b with ticks := (b.ticks + 1) % 65536, debounce_cnt := 0 } hs hl]
    dsimp only
    split_ifs with hlt
    · exact Nat.mod_eq_of_lt (by simp only [PRESS_REPEAT_MAX_NUM] at hlt; omega)
    · rfl
  · intro hni hnr
    unfold button_handler at hni hnr ⊢
    have hc := state_switch_rpt_cases (debounce (tick_inc b) r)
    simp only [debounce_rpt, tick_inc_rpt, debounce_state, tick_inc_state]
      at hc
    rcases hc with h1 | h2 | h3
    · exact h1
    · exact absurd ⟨h2.1, h2.2.1⟩ hni
    · exact absurd ⟨h3.1, h3.2.1⟩ hnr

/-- C4 instantiated: a Release re-press at repeat count 1 moves it to 2,
and the count stays at most 15 over a long all-active run. -/
theorem C4_repeat_bounded_witness :
    (run_button wb_repress (List.replicate 20 1)).1.rpt ≤
      PRESS_REPEAT_MAX_NUM ∧
    (button_handler wb_repress 1).1.rpt =
      (if wb_repress.rpt < PRESS_REPEAT_MAX_NUM
       then wb_repress.rpt + 1 else wb_repress.rpt) := by
  have h := C4_repeat_bounded wb_repress 1 (List.replicate 20 1) (by decide)
  exact ⟨h.1, h.2.2.1 (by decide) (by decide) (by decide)⟩

end MultiButton

namespace MultiButton

theorem unlink_first_absent (l : List Nat) (h : Nat)
    (hn : list_scan l h = false) : unlink_first l h = l := by
  induction l with
  | nil => rfl
  | cons e rest ih =>
    unfold list_scan at hn
    unfold unlink_first
    split at hn
    · exact absurd hn (by simp)
    · rw [if_neg (by assumption), ih hn]

theorem unlink_first_present (pre post : List Nat) (h : Nat)
    (hn : list_scan pre h = false) :
    unlink_first (pre ++ h :: post) h = pre ++ post := by
  induction pre with
  | nil => simp [unlink_first]
  | cons e rest ih =>
    unfold list_scan at hn
    split at hn
    · exact absurd hn (by simp)
    · simp only [List.cons_append, unlink_first]
      rw [if_neg (by assumption)]
      show e :: unlink_first (rest ++ h :: post) h = e :: (rest ++ post)
      rw [ih hn]

/-- C6: button_start rejects a null handle with -2 leaving the active list
unchanged, returns -1 on an already-linked handle leaving the list (size and
order) unchanged, and otherwise prepends the handle and returns 0;
button_stop is a no-op on a null or absent handle and unlinks exactly the
matching node otherwise. -/
theorem C6_registry (h : Nat) (l : List Nat) :
    (button_start none l = (-2, l)) ∧
    (list_scan l h = true → button_start (some h) l = (-1, l)) ∧
    (list_scan l h = false → button_start (some h) l = (0, h :: l)) ∧
    (button_stop none l = l) ∧
    (list_scan l h = false → button_stop (some h) l = l) ∧
    (∀ pre post, l = pre ++ h :: post → list_scan pre h = false →
      button_stop (some h) l = pre ++ post) := by
  refine ⟨rfl, ?_, ?_, rfl, ?_, ?_⟩
  · intro hin
    show (if list_scan l h = true then ((-1 : Int), l) else ((0 : Int), h :: l)) = ((-1 : Int), l)
    rw [hin]
    rfl
  · intro hout
    show (if list_scan l h = true then ((-1 : Int), l) else ((0 : Int), h :: l)) = ((0 : Int), h :: l)
    rw [hout]
    rfl
  · intro hout
    show unlink_first l h = l
    exact unlink_first_absent l h hout
  · intro pre post hl hpre
    show unlink_first l h = pre ++ post
    rw [hl]
    exact unlink_first_present pre post h hpre

/-- C6 instantiated on the list with identities 2, 1, 3: starting 1 again
reports -1 without change; stopping 1 removes exactly it; starting a null
handle reports -2. -/
theorem C6_registry_witness :
    button_start (some 1) [2, 1, 3] = (-1, [2, 1, 3]) ∧
    button_stop (some 1) [2, 1, 3] = [2, 3] ∧
    button_start none [2, 1, 3] = (-2, [2, 1, 3]) := by
  have hh := C6_registry 1 [2, 1, 3]
  exact ⟨hh.2.1 (by decide),
    hh.2.2.2.2.2 [2] [3] (by decide) (by decide), hh.1⟩

end MultiButton

namespace MultiButton

open ButtonEvent

theorem run_button_nil (b : Button) : run_button b [] = (b, []) := rfl

theorem run_button_cons (b : Button) (r : Nat) (rs : List Nat) :
    run_button b (r :: rs) =
      ((run_button (button_handler b r).1 rs).1,
       (button_handler b r).2.map Prod.fst ++
         (run_button (button_handler b r).1 rs).2) := rfl

theorem debounce_disagree_low (b : Button) (r : Nat)
    (hne : r ≠ b.button_level) (hc : b.debounce_cnt + 1 < DEBOUNCE_TICKS) :
    debounce b r = { b with debounce_cnt := b.debounce_cnt + 1 } := by
  have hm : (b.debounce_cnt + 1) % 8 = b.debounce_cnt + 1 := by
    apply Nat.mod_eq_of_lt
    simp only [DEBOUNCE_TICKS] at hc
    omega
  unfold debounce
  rw [if_pos hne]
  dsimp only
  rw [if_neg (by rw [hm]; omega), hm]

theorem debounce_commit_step (b : Button) (r : Nat)
    (hne : r ≠ b.button_level) (hc : b.debounce_cnt + 1 = DEBOUNCE_TICKS) :
    debounce b r = { b with button_level := r % 2, debounce_cnt := 0 } := by
  have hm : (b.debounce_cnt + 1) % 8 = b.debounce_cnt + 1 := by
    apply Nat.mod_eq_of_lt
    simp only [DEBOUNCE_TICKS] at hc
    omega
  unfold debounce
  rw [if_pos hne]
  dsimp only
  rw [if_pos (by rw [hm, hc])]

/-- One tick in Press, held active below the long-press threshold: nothing
fires, ticks advances. -/
theorem press_wait_step (b : Button) (hs : b.state = BTN_STATE_PRESS)
    (hl : b.button_level = 1) (ha : b.active_level = 1)
    (ht : ¬ (b.ticks + 1) % 65536 > LONG_TICKS) :
    button_handler b 1 =
      ({ b with ticks := (b.ticks + 1) % 65536, debounce_cnt := 0 }, []) := by
  unfold button_handler
  rw [tick_inc_pos b (by rw [hs]; decide)]
  rw [debounce_agree { b with ticks := (b.ticks + 1) % 65536 } 1 (by show (1 : Nat) = b.button_level; rw [hl])]
  rw [state_switch_press_wait { b with ticks := (b.ticks + 1) % 65536, debounce_cnt := 0 } hs (by show b.button_level = b.active_level; rw [hl, ha]) ht]

/-- The tick in Press on which ticks passes LONG_TICKS: BTN_LONG_PRESS_START
fires and the state moves to LongHold with ticks NOT reset. -/
theorem press_to_long_step (b : Button) (hs : b.state = BTN_STATE_PRESS)
    (hl : b.button_level = 1) (ha : b.active_level = 1)
    (ht : (b.ticks + 1) % 65536 > LONG_TICKS) :
    button_handler b 1 =
      ({ b with ticks := (b.ticks + 1) % 65536, debounce_cnt := 0, event := BTN_LONG_PRESS_START, state := BTN_STATE_LONG_HOLD },
       [(BTN_LONG_PRESS_START, { b with ticks := (b.ticks + 1) % 65536, debounce_cnt := 0, event := BTN_LONG_PRESS_START })]) := by
  unfold button_handler
  rw [tick_inc_pos b (by rw [hs]; decide)]
  rw [debounce_agree { b with ticks := (b.ticks + 1) % 65536 } 1 (by show (1 : Nat) = b.button_level; rw [hl])]
  rw [state_switch_press_long { b with ticks := (b.ticks + 1) % 65536, debounce_cnt := 0 } hs (by show b.button_level = b.active_level; rw [hl, ha]) ht]

/-- One tick in LongHold with the raw sample agreeing with the held level:
one BTN_LONG_PRESS_HOLD fires. -/
theorem longhold_hold_step (b : Button) (hs : b.state = BTN_STATE_LONG_HOLD)
    (hl : b.button_level = 1) (ha : b.active_level = 1) :
    button_handler b 1 =
      ({ b with ticks := (b.ticks + 1) % 65536, debounce_cnt := 0, event := BTN_LONG_PRESS_HOLD },
       [(BTN_LONG_PRESS_HOLD, { b with ticks := (b.ticks + 1) % 65536, debounce_cnt := 0, event := BTN_LONG_PRESS_HOLD })]) := by
  unfold button_handler
  rw [tick_inc_pos b (by rw [hs]; decide)]
  rw [debounce_agree { b with ticks := (b.ticks + 1) % 65536 } 1 (by show (1 : Nat) = b.button_level; rw [hl])]
  rw [state_switch_longhold_hold { b with ticks := (b.ticks + 1) % 65536, debounce_cnt := 0 } hs (by show b.button_level = b.active_level; rw [hl, ha])]

/-- One tick in LongHold with a disagreeing raw sample still inside the
debounce budget: the hold event keeps firing. -/
theorem longhold_bounce_step (b : Button) (hs : b.state = BTN_STATE_LONG_HOLD)
    (hl : b.button_level = 1) (ha : b.active_level = 1)
    (hc : b.debounce_cnt + 1 < DEBOUNCE_TICKS) :
    button_handler b 0 =
      ({ b with ticks := (b.ticks + 1) % 65536, debounce_cnt := b.debounce_cnt + 1, event := BTN_LONG_PRESS_HOLD },
       [(BTN_LONG_PRESS_HOLD, { b with ticks := (b.ticks + 1) % 65536, debounce_cnt := b.debounce_cnt + 1, event := BTN_LONG_PRESS_HOLD })]) := by
  unfold button_handler
  rw [tick_inc_pos b (by rw [hs]; decide)]
  rw [debounce_disagree_low { b with ticks := (b.ticks + 1) % 65536 } 0 (by show (0 : Nat) ≠ b.button_level; rw [hl]; decide) hc]
  rw [state_switch_longhold_hold { b with ticks := (b.ticks + 1) % 65536, debounce_cnt := b.debounce_cnt + 1 } hs (by show b.button_level = b.active_level; rw [hl, ha])]

/-- The tick in LongHold on which the release commits through the debounce
filter: exactly one BTN_PRESS_UP fires and the state returns to Idle. -/
theorem longhold_release_step (b : Button)
    (hs : b.state = BTN_STATE_LONG_HOLD) (hl : b.button_level = 1)
    (ha : b.active_level = 1) (hc : b.debounce_cnt + 1 = DEBOUNCE_TICKS) :
    button_handler b 0 =
      ({ b with ticks := (b.ticks + 1) % 65536, button_level := 0 % 2, debounce_cnt := 0, event := BTN_PRESS_UP, state := BTN_STATE_IDLE },
       [(BTN_PRESS_UP, { b with ticks := (b.ticks + 1) % 65536, button_level := 0 % 2, debounce_cnt := 0, event := BTN_PRESS_UP })]) := by
  unfold button_handler
  rw [tick_inc_pos b (by rw [hs]; decide)]
  rw [debounce_commit_step { b with ticks := (b.ticks + 1) % 65536 } 0 (by show (0 : Nat) ≠ b.button_level; rw [hl]; decide) hc]
  rw [state_switch_longhold_up { b with ticks := (b.ticks + 1) % 65536, button_level := 0 % 2, debounce_cnt := 0 } hs (by show (0 % 2 : Nat) ≠ b.active_level; rw [ha]; decide)]

end MultiButton

namespace MultiButton

open ButtonEvent

/-- Holding in Press below the long-press threshold emits nothing and only
advances ticks. -/
theorem press_hold_run (n : Nat) (b : Button)
    (hs : b.state = BTN_STATE_PRESS) (hl : b.button_level = 1)
    (ha : b.active_level = 1) (hd : b.debounce_cnt = 0)
    (ht : b.ticks + n ≤ LONG_TICKS) :
    (run_button b (List.replicate n 1)).2 = [] ∧
    (run_button b (List.replicate n 1)).1.state = BTN_STATE_PRESS ∧
    (run_button b (List.replicate n 1)).1.ticks = b.ticks + n ∧
    (run_button b (List.replicate n 1)).1.button_level = 1 ∧
    (run_button b (List.replicate n 1)).1.active_level = 1 ∧
    (run_button b (List.replicate n 1)).1.debounce_cnt = 0 := by
  induction n generalizing b with
  | zero => simp [run_button_nil, hs, hl, ha, hd]
  | succ n ih =>
    have hlong : LONG_TICKS = 200 := by decide
    have hm : (b.ticks + 1) % 65536 = b.ticks + 1 :=
      Nat.mod_eq_of_lt (by omega)
    have hstep := press_wait_step b hs hl ha (by rw [hm]; omega)
    rw [List.replicate_succ, run_button_cons, hstep]
    dsimp only
    have hr := ih { b with ticks := (b.ticks + 1) % 65536, debounce_cnt := 0 } hs hl ha rfl (by show (b.ticks + 1) % 65536 + n ≤ LONG_TICKS; rw [hm]; omega)
    refine ⟨by rw [hr.1]; simp, hr.2.1, ?_, hr.2.2.2.1, hr.2.2.2.2.1, hr.2.2.2.2.2⟩
    rw [hr.2.2.1]
    show (b.ticks + 1) % 65536 + n = b.ticks + (n + 1)
    rw [hm]
    omega

/-- Holding in LongHold fires one BTN_LONG_PRESS_HOLD per tick. -/
theorem longhold_run (n : Nat) (b : Button)
    (hs : b.state = BTN_STATE_LONG_HOLD) (hl : b.button_level = 1)
    (ha : b.active_level = 1) (hd : b.debounce_cnt = 0) :
    (run_button b (List.replicate n 1)).2 =
      List.replicate n BTN_LONG_PRESS_HOLD ∧
    (run_button b (List.replicate n 1)).1.state = BTN_STATE_LONG_HOLD ∧
    (run_button b (List.replicate n 1)).1.button_level = 1 ∧
    (run_button b (List.replicate n 1)).1.active_level = 1 ∧
    (run_button b (List.replicate n 1)).1.debounce_cnt = 0 := by
  induction n generalizing b with
  | zero => simp [run_button_nil, hs, hl, ha, hd]
  | succ n ih =>
    have hstep := longhold_hold_step b hs hl ha
    rw [List.replicate_succ, run_button_cons, hstep]
    dsimp only
    have hr := ih { b with ticks := (b.ticks + 1) % 65536, debounce_cnt := 0, event := BTN_LONG_PRESS_HOLD } hs hl ha rfl
    refine ⟨?_, hr.2.1, hr.2.2.1, hr.2.2.2.1, hr.2.2.2.2⟩
    rw [hr.1, List.replicate_succ]
    rfl

/-- Releasing from LongHold: two debounce ticks still fire the hold event,
then the commit tick fires exactly one BTN_PRESS_UP and lands in Idle. -/
theorem longhold_finish (b : Button)
    (hs : b.state = BTN_STATE_LONG_HOLD) (hl : b.button_level = 1)
    (ha : b.active_level = 1) (hd : b.debounce_cnt = 0) :
    (run_button b (List.replicate 3 0)).2 =
      [BTN_LONG_PRESS_HOLD, BTN_LONG_PRESS_HOLD, BTN_PRESS_UP] ∧
    (run_button b (List.replicate 3 0)).1.state = BTN_STATE_IDLE := by
  rw [show List.replicate 3 (0 : Nat) = [0, 0, 0] from rfl]
  have h1 := longhold_bounce_step b hs hl ha (by rw [hd]; decide)
  rw [run_button_cons, h1]
  dsimp only
  have h2 := longhold_bounce_step { b with ticks := (b.ticks + 1) % 65536, debounce_cnt := b.debounce_cnt + 1, event := BTN_LONG_PRESS_HOLD } hs hl ha (by show b.debounce_cnt + 1 + 1 < DEBOUNCE_TICKS; rw [hd]; decide)
  rw [run_button_cons, h2]
  dsimp only
  have h3 := longhold_release_step { b with ticks := ((b.ticks + 1) % 65536 + 1) % 65536, debounce_cnt := b.debounce_cnt + 1 + 1, event := BTN_LONG_PRESS_HOLD } hs hl ha (by show b.debounce_cnt + 1 + 1 + 1 = DEBOUNCE_TICKS; rw [hd]; decide)
  rw [run_button_cons, h3]
  dsimp only
  rw [run_button_nil]
  exact ⟨rfl, rfl⟩

end MultiButton

namespace MultiButton

open ButtonEvent

/-- C1 is refuted on a reachable trace: from a fresh active-high button,
203 active samples reach Press with ticks = 200, and the 204th sample
performs the Press-to-LongHold transition after which ticks = 201, not 0. -/
theorem C1_ticks_reset_counterexample :
    (run_button (button_init 1 0) (List.replicate 203 1)).1.state =
      BTN_STATE_PRESS ∧
    (run_button (button_init 1 0) (List.replicate 204 1)).1.state =
      BTN_STATE_LONG_HOLD ∧
    (run_button (button_init 1 0) (List.replicate 204 1)).1.ticks = 201 := by
  have h3 : run_button (button_init 1 0) (List.replicate 3 1) =
      (press_start, [BTN_PRESS_DOWN]) := by rfl
  have hsplit203 : List.replicate 203 (1 : Nat) =
      List.replicate 3 1 ++ List.replicate 200 1 := by
    rw [← List.replicate_add]
  have hsplit204 : List.replicate 204 (1 : Nat) =
      (List.replicate 3 1 ++ List.replicate 200 1) ++ List.replicate 1 1 := by
    rw [← List.replicate_add, ← List.replicate_add]
  have hQ := press_hold_run 200 press_start rfl rfl rfl rfl (by decide)
  have hlast := press_to_long_step
    (run_button press_start (List.replicate 200 1)).1 hQ.2.1 hQ.2.2.2.1
    hQ.2.2.2.2.1 (by rw [hQ.2.2.1]; decide)
  have hmain : (run_button (button_init 1 0) (List.replicate 204 1)).1 =
      (button_handler (run_button press_start (List.replicate 200 1)).1 1).1 := by
    rw [hsplit204, run_button_append, run_button_append, h3]
    dsimp only
    rw [show List.replicate 1 (1 : Nat) = [1] from rfl, run_button_cons]
    dsimp only
    rw [run_button_nil]
  refine ⟨?_, ?_, ?_⟩
  · rw [hsplit203, run_button_append, h3]
    dsimp only
    exact hQ.2.1
  · rw [hmain, hlast]
  · rw [hmain, hlast]
    show ((run_button press_start (List.replicate 200 1)).1.ticks + 1) %
      65536 = 201
    rw [hQ.2.2.1]
    decide

/-- The state machine resets ticks exactly on the transitions into Press
from Idle, into Release from Press or Repeat, and into Repeat from Release;
the Press-to-LongHold and Repeat-to-Press transitions and the transitions
into Idle from Release, Repeat and LongHold keep the running ticks value. -/
theorem state_switch_ticks_cases (b : Button) :
    ((b.state = BTN_STATE_IDLE ∧
        (state_switch b).1.state = BTN_STATE_PRESS) →
      (state_switch b).1.ticks = 0) ∧
    ((b.state = BTN_STATE_PRESS ∧
        (state_switch b).1.state = BTN_STATE_RELEASE) →
      (state_switch b).1.ticks = 0) ∧
    ((b.state = BTN_STATE_RELEASE ∧
        (state_switch b).1.state = BTN_STATE_REPEAT) →
      (state_switch b).1.ticks = 0) ∧
    ((b.state = BTN_STATE_REPEAT ∧
        (state_switch b).1.state = BTN_STATE_RELEASE) →
      (state_switch b).1.ticks = 0) ∧
    ((b.state = BTN_STATE_PRESS ∧
        (state_switch b).1.state = BTN_STATE_LONG_HOLD) →
      (state_switch b).1.ticks = b.ticks) ∧
    ((b.state = BTN_STATE_REPEAT ∧
        (state_switch b).1.state = BTN_STATE_PRESS) →
      (state_switch b).1.ticks = b.ticks) ∧
    ((b.state = BTN_STATE_RELEASE ∧
        (state_switch b).1.state = BTN_STATE_IDLE) →
      (state_switch b).1.ticks = b.ticks) ∧
    ((b.state = BTN_STATE_REPEAT ∧
        (state_switch b).1.state = BTN_STATE_IDLE) →
      (state_switch b).1.ticks = b.ticks) ∧
    ((b.state = BTN_STATE_LONG_HOLD ∧
        (state_switch b).1.state = BTN_STATE_IDLE) →
      (state_switch b).1.ticks = b.ticks) := by
  unfold state_switch
  dsimp only
  (repeat' split) <;>
    simp_all [BTN_STATE_IDLE, BTN_STATE_PRESS, BTN_STATE_RELEASE,
      BTN_STATE_REPEAT, BTN_STATE_LONG_HOLD]

/-- C1 amended: ticks is 0 immediately after the transitions Idle-to-Press,
Press-to-Release, Release-to-Repeat and Repeat-to-Release, but the
transitions Press-to-LongHold, Repeat-to-Press, Release-to-Idle,
Repeat-to-Idle and LongHold-to-Idle do not reset it: after each of them it
equals the just-incremented tick counter. -/
theorem C1_ticks_reset_amended (b : Button) (r : Nat) :
    ((b.state = BTN_STATE_IDLE ∧
        (button_handler b r).1.state = BTN_STATE_PRESS) →
      (button_handler b r).1.ticks = 0) ∧
    ((b.state = BTN_STATE_PRESS ∧
        (button_handler b r).1.state = BTN_STATE_RELEASE) →
      (button_handler b r).1.ticks = 0) ∧
    ((b.state = BTN_STATE_RELEASE ∧
        (button_handler b r).1.state = BTN_STATE_REPEAT) →
      (button_handler b r).1.ticks = 0) ∧
    ((b.state = BTN_STATE_REPEAT ∧
        (button_handler b r).1.state = BTN_STATE_RELEASE) →
      (button_handler b r).1.ticks = 0) ∧
    ((b.state = BTN_STATE_PRESS ∧
        (button_handler b r).1.state = BTN_STATE_LONG_HOLD) →
      (button_handler b r).1.ticks = (b.ticks + 1) % 65536) ∧
    ((b.state = BTN_STATE_REPEAT ∧
        (button_handler b r).1.state = BTN_STATE_PRESS) →
      (button_handler b r).1.ticks = (b.ticks + 1) % 65536) ∧
    ((b.state = BTN_STATE_RELEASE ∧
        (button_handler b r).1.state = BTN_STATE_IDLE) →
      (button_handler b r).1.ticks = (b.ticks + 1) % 65536) ∧
    ((b.state = BTN_STATE_REPEAT ∧
        (button_handler b r).1.state = BTN_STATE_IDLE) →
      (button_handler b r).1.ticks = (b.ticks + 1) % 65536) ∧
    ((b.state = BTN_STATE_LONG_HOLD ∧
        (button_handler b r).1.state = BTN_STATE_IDLE) →
      (button_handler b r).1.ticks = (b.ticks + 1) % 65536) := by
  unfold button_handler
  have hc := state_switch_ticks_cases (debounce (tick_inc b) r)
  simp only [debounce_state, tick_inc_state, debounce_ticks] at hc
  refine ⟨hc.1, hc.2.1, hc.2.2.1, hc.2.2.2.1, ?_, ?_, ?_, ?_, ?_⟩
  · intro hx
    rw [hc.2.2.2.2.1 hx, tick_inc_ticks, if_pos (by rw [hx.1]; decide)]
  · intro hx
    rw [hc.2.2.2.2.2.1 hx, tick_inc_ticks, if_pos (by rw [hx.1]; decide)]
  · intro hx
    rw [hc.2.2.2.2.2.2.1 hx, tick_inc_ticks, if_pos (by rw [hx.1]; decide)]
  · intro hx
    rw [hc.2.2.2.2.2.2.2.1 hx, tick_inc_ticks, if_pos (by rw [hx.1]; decide)]
  · intro hx
    rw [hc.2.2.2.2.2.2.2.2 hx, tick_inc_ticks, if_pos (by rw [hx.1]; decide)]

/-- C1 amended, instantiated: the Repeat-to-Release transition of wb_repeat
resets ticks to 0. -/
theorem C1_ticks_reset_amended_witness :
    (button_handler wb_repeat 0).1.ticks = 0 := by
  have h := C1_ticks_reset_amended wb_repeat 0
  exact h.2.2.2.1 ⟨by decide, by decide⟩

end MultiButton

namespace MultiButton

open ButtonEvent

/-- C9: a fresh active-high button held active for 204 + n ticks (3 debounce
ticks, the Idle-to-Press tick, 200 more held ticks, the long-press tick and
n further held ticks) and then released (3 inactive samples) fires exactly
one BTN_PRESS_DOWN, exactly one BTN_LONG_PRESS_START on the first tick on
which ticks exceeds LONG_TICKS, exactly one BTN_LONG_PRESS_HOLD on every
subsequent tick while the stable level stays active (n + 2 of them, the
release debounce included), and exactly one BTN_PRESS_UP when the stable
level turns inactive, ending in Idle. -/
theorem C9_long_press_events (n : Nat) :
    (run_button (button_init 1 0)
        (List.replicate (204 + n) 1 ++ List.replicate 3 0)).2 =
      [BTN_PRESS_DOWN, BTN_LONG_PRESS_START] ++
        List.replicate (n + 2) BTN_LONG_PRESS_HOLD ++ [BTN_PRESS_UP] ∧
    (run_button (button_init 1 0)
        (List.replicate (204 + n) 1 ++ List.replicate 3 0)).1.state =
      BTN_STATE_IDLE := by
  have h3 : run_button (button_init 1 0) (List.replicate 3 1) =
      (press_start, [BTN_PRESS_DOWN]) := by rfl
  have hsplit : List.replicate (204 + n) (1 : Nat) ++ List.replicate 3 0 =
      (((List.replicate 3 1 ++ List.replicate 200 1) ++ List.replicate 1 1) ++
        List.replicate n 1) ++ List.replicate 3 0 := by
    rw [show 204 + n = 3 + 200 + 1 + n from by omega, List.replicate_add,
      List.replicate_add, List.replicate_add]
  rw [hsplit, run_button_append, run_button_append, run_button_append,
    run_button_append, h3]
  dsimp only
  have hQ := press_hold_run 200 press_start rfl rfl rfl rfl (by decide)
  have hlast := press_to_long_step
    (run_button press_start (List.replicate 200 1)).1 hQ.2.1 hQ.2.2.2.1
    hQ.2.2.2.2.1 (by rw [hQ.2.2.1]; decide)
  rw [show List.replicate 1 (1 : Nat) = [1] from rfl, run_button_cons, hlast]
  dsimp only
  rw [run_button_nil]
  dsimp only
  generalize hq : (run_button press_start (List.replicate 200 1)).1 = Q
  rw [hq] at hQ
  have hhold := longhold_run n { Q with ticks := (Q.ticks + 1) % 65536, debounce_cnt := 0, event := BTN_LONG_PRESS_START, state := BTN_STATE_LONG_HOLD } rfl hQ.2.2.2.1 hQ.2.2.2.2.1 rfl
  have hfin := longhold_finish
    (run_button { Q with ticks := (Q.ticks + 1) % 65536, debounce_cnt := 0, event := BTN_LONG_PRESS_START, state := BTN_STATE_LONG_HOLD } (List.replicate n 1)).1
    hhold.2.1 hhold.2.2.1 hhold.2.2.2.1 hhold.2.2.2.2
  constructor
  · rw [hQ.1, hhold.1, hfin.1]
    simp [List.replicate_add]
  · exact hfin.2

end MultiButton
